import Mathlib

namespace Dbml

/-
Verification development for the DBML Transform pipeline.

The development shallowly embeds three parts of the repository:
  * the statement-level part of the Transform interpreter
    (packages/dbml-parse, TransformInterpreter: interpretStatement and its
    branches, parseOrderBy, expressionToString);
  * the SQL view emitter (packages/dbml-core/src/export/TransformExporter.js);
  * the dbt model emitter (packages/dbml-core/src/export/DbtExporter.js,
    generateDbtModel and its clause builders; the filesystem-writing entry
    point is not modelled).

JavaScript-specific behaviour is modelled explicitly:
  * string truthiness (empty string and undefined are falsy) via Option
    String plus strTruthy;
  * Array.prototype.join via joinSep (empty list gives "");
  * Array.prototype.filter(Boolean) on the parts array via partsFilter,
    which drops both null entries and empty strings;
  * parseInt(s, 10) via jsParseInt (leading whitespace, optional sign,
    maximal run of leading decimal digits, NaN as none);
  * String.prototype.toUpperCase / toLowerCase via jsToUpper / jsToLower
    (character-wise, which agrees with JavaScript on ASCII data);
  * String.prototype.split via splitChar;
  * lodash snakeCase via snakeCase (ASCII word splitting).

Exceptions thrown by the emitters are modelled with Except String: the only
throw sites in the two emitters are the two buildFromClause functions.
The external expression-decomposition helpers (destructureComplexVariable,
extractVariableFromExpression) are out of scope per the spec; an ExprNode
carries their results as data, together with the infix-comparison shape
used by the join and add statements.
-/

/-! ## JavaScript-semantics string helpers -/

/-- JS Array.prototype.join with separator `sep`. -/
def joinSep (sep : String) : List String → String
  | [] => ""
  | [x] => x
  | x :: y :: xs => x ++ sep ++ joinSep sep (y :: xs)

/-- JS truthiness of an optional string: `undefined` and `""` are falsy. -/
def strTruthy (o : Option String) : Bool := o.getD "" != ""

/-- JS String.prototype.toUpperCase, character-wise (ASCII-faithful). -/
def jsToUpper (s : String) : String := String.mk (s.data.map Char.toUpper)

/-- JS String.prototype.toLowerCase, character-wise (ASCII-faithful). -/
def jsToLower (s : String) : String := String.mk (s.data.map Char.toLower)

/-- Helper for `splitChar`: accumulates the current piece in reverse. -/
def splitCharAux (c : Char) : List Char → List Char → List String
  | [], acc => [String.mk acc.reverse]
  | x :: xs, acc =>
    if x == c then String.mk acc.reverse :: splitCharAux c xs []
    else splitCharAux c xs (x :: acc)

/-- JS String.prototype.split on a single-character separator. -/
def splitChar (c : Char) (s : String) : List String := splitCharAux c s.data []

/-- value of a run of decimal digit characters, base 10. -/
def digitsToNat (l : List Char) : Nat := l.foldl (fun acc c => acc * 10 + (c.toNat - 48)) 0

/-- JS whitespace recognised by parseInt before the number. -/
def isJsSpace (c : Char) : Bool := c == ' ' || c == '\t' || c == '\n' || c == '\r'

/-- JS parseInt(s, 10): skip leading whitespace, optional sign, then the
maximal run of leading decimal digits; `none` models NaN. -/
def jsParseInt (s : String) : Option Int :=
  let cs := s.data.dropWhile isJsSpace
  let signAndRest : Int × List Char :=
    match cs with
    | '-' :: rest => (-1, rest)
    | '+' :: rest => (1, rest)
    | _ => (1, cs)
  let digits := signAndRest.2.takeWhile Char.isDigit
  if digits.isEmpty then none
  else some (signAndRest.1 * (digitsToNat digits : Int))

/-- One step of the lodash snakeCase word scanner; a word break is placed
after character `c` when the lookahead `d` (and `e` after it) demands one. -/
def snakeBreak (c : Char) (d e : Option Char) : Bool :=
  match d with
  | none => true
  | some d =>
    if !d.isAlphanum then true
    else if c.isLower && d.isUpper then true
    else if c.isDigit && !d.isDigit then true
    else if !c.isDigit && d.isDigit then true
    else if c.isUpper && d.isUpper then
      match e with
      | some e => e.isLower
      | none => false
    else false

/-- lodash snakeCase on ASCII input: split into words at case and
letter/digit boundaries and at non-alphanumeric characters, lowercase the
words and join them with underscores. -/
def snakeCase (s : String) : String :=
  let cs := s.data
  let nexts := (cs.drop 1).map some ++ [none]
  let nexts2 := (cs.drop 2).map some ++ [none, none]
  let annotated := cs.zip (nexts.zip nexts2)
  let step := fun (acc : List String × List Char) (p : Char × Option Char × Option Char) =>
    let c := p.1
    if !c.isAlphanum then
      (if acc.2.isEmpty then acc.1 else acc.1 ++ [String.mk acc.2], [])
    else
      let cur := acc.2 ++ [c]
      if snakeBreak c p.2.1 p.2.2 then (acc.1 ++ [String.mk cur], []) else (acc.1, cur)
  let scanned := annotated.foldl step ([], [])
  let words := if scanned.2.isEmpty then scanned.1 else scanned.1 ++ [String.mk scanned.2]
  joinSep "_" (words.map jsToLower)

/-- The parts array handling of both exporters: JS builds an array of
strings and nulls and applies filter(Boolean), which drops both the null
entries and any empty string. -/
def partsFilter (l : List (Option String)) : List String :=
  (l.filterMap id).filter (fun s => s != "")

/-- Rendering of an optional string interpolated into a JS template
literal: `undefined` prints as "undefined". -/
def optShow : Option String → String
  | some s => s
  | none => "undefined"

/-- A single-quote character as a string (used by the dbt templates). -/
def sQuote : String := String.mk [Char.ofNat 39]

/-! ## Substring machinery (used to state containment of clauses) -/

/-- `leadsWith n l` holds when list `l` starts with `n`. -/
def leadsWith : List Char → List Char → Bool
  | [], _ => true
  | _ :: _, [] => false
  | a :: as, b :: bs => a == b && leadsWith as bs

/-- `occursIn n l` holds when `n` occurs contiguously inside `l`. -/
def occursIn : List Char → List Char → Bool
  | n, [] => leadsWith n []
  | n, b :: rest => leadsWith n (b :: rest) || occursIn n rest

/-- Substring test on strings, via the underlying character lists. -/
def strOccurs (needle hay : String) : Bool := occursIn needle.data hay.data

/-! ## Data model (the Transform intermediate representation) -/

/-- One ORDER BY term: table, column, direction ("ASC" or "DESC"). -/
structure OrderTerm where
  table : String
  column : String
  direction : String
deriving Repr, DecidableEq

/-- Aggregation payload of a column: function name, optional partition_by
token list and optional order_by terms (absent is modelled as []). -/
structure Aggregation where
  function : String
  partitionBy : List String
  orderBy : List OrderTerm
deriving Repr, DecidableEq

/-- Window payload of a column: function name, optional partition_by and
order_by, optional opaque frame string. -/
structure Window where
  function : String
  partitionBy : List String
  orderBy : List OrderTerm
  frame : Option String
deriving Repr, DecidableEq

/-- One projected column; the variant is decided by which payload is
populated, probed aggregation first, then window, then expression. -/
structure Column where
  sourceTable : String
  sourceColumn : String
  aliasName : Option String
  expression : Option String
  aggregation : Option Aggregation
  window : Option Window
deriving Repr, DecidableEq

/-- One source table of a Transform. -/
structure Source where
  name : String
  schemaName : Option String
  aliasName : Option String
deriving Repr, DecidableEq

/-- One join predicate: two-part qualified names compared by operator. -/
structure Join where
  leftTable : String
  leftColumn : String
  operator : String
  rightTable : String
  rightColumn : String
deriving Repr, DecidableEq

/-- One WHERE filter, an opaque expression serialization. -/
structure Filter where
  expression : String
deriving Repr, DecidableEq

/-- One derived column added by an add statement. -/
structure DerivedColumn where
  name : String
  expression : String
deriving Repr, DecidableEq

/-- Nested transform reference recorded by a using statement. -/
structure NestedTransform where
  transformName : String
  sources : List Source
deriving Repr, DecidableEq

/-- The Transform record produced by interpretation and consumed read-only
by the emitters; optional sequences are modelled as lists with [] for
absent, limit as an optional integer. -/
structure Transform where
  name : String
  schemaName : Option String
  sources : List Source
  columns : List Column
  joins : List Join
  filters : List Filter
  groupBy : List String
  orderBy : List OrderTerm
  limit : Option Int
  derivedColumns : List DerivedColumn
  nestedTransform : Option NestedTransform
deriving Repr, DecidableEq

/-! ## Diagnostics and generic syntax data for the interpreter -/

/-- The CompileError codes used by the Transform interpreter. -/
inductive CompileErrorCode where
  | UNSUPPORTED
  | UNEXPECTED_TOKEN
  | INVALID_NAME
  | INVALID_COLUMN
deriving Repr, DecidableEq

/-- A collected diagnostic: code and message (source positions are not
modelled). -/
structure CompileError where
  code : CompileErrorCode
  message : String
deriving Repr, DecidableEq

/-- A generic expression node, carrying the results of the two external
decomposition helpers as data: `decomp` is destructureComplexVariable
(none models failure), `extractVar` is extractVariableFromExpression, and
`binOp` is populated exactly when the node is an InfixExpressionNode with
both children present (operator token value, left child, right child). -/
inductive ExprNode where
  | node : Option (List String) → Option String →
      Option (Option String × ExprNode × ExprNode) → ExprNode

/-- destructureComplexVariable result of a node. -/
def ExprNode.decomp : ExprNode → Option (List String)
  | .node d _ _ => d

/-- extractVariableFromExpression result of a node. -/
def ExprNode.extractVar : ExprNode → Option String
  | .node _ v _ => v

/-- Infix shape of a node, when it is an InfixExpressionNode with both
children present. -/
def ExprNode.binOp : ExprNode → Option (Option String × ExprNode × ExprNode)
  | .node _ _ b => b

/-- A statement entry of a Transform body: keyword token and expression
(either may be missing). -/
structure Statement where
  keyword : Option String
  expression : Option ExprNode

/-! ## SQL view emitter (TransformExporter.js)

The dialect argument of the source functions is accepted but never read
(rendering is identical across dialects today), so it is omitted here. -/

namespace TransformExporter

/-- ANSI double-quoting of one identifier, as written inline in the JS
template literals. -/
def q (s : String) : String := "\"" ++ s ++ "\""

/-- The alias tail, mirroring the JS idiom col.alias ? ` AS "..."` : ''. -/
def aliasSql (a : Option String) : String :=
  if strTruthy a then " AS " ++ q (a.getD "") else ""

/-- One ORDER BY term as rendered inside OVER and ORDER BY clauses. -/
def orderTermSql (o : OrderTerm) : String :=
  q o.table ++ "." ++ q o.column ++ " " ++ o.direction

/-- One join predicate as rendered in an ON body. -/
def joinCondSql (j : Join) : String :=
  q j.leftTable ++ "." ++ q j.leftColumn ++ " " ++ j.operator ++ " " ++
    q j.rightTable ++ "." ++ q j.rightColumn

/-- buildAggregationColumn: FUNC(expr), wrapped in OVER (PARTITION BY ...)
when partitionBy is non-empty, with the OVER body extended by ORDER BY
when orderBy is also non-empty. -/
def buildAggregationColumn (col : Column) (agg : Aggregation) : String :=
  let func := jsToUpper agg.function
  let expr :=
    if col.sourceTable != "" then q col.sourceTable ++ "." ++ q col.sourceColumn
    else q col.sourceColumn
  let aggregateExpr :=
    if agg.partitionBy.length > 0 then
      let partitionCols := joinSep ", " (agg.partitionBy.map q)
      let overClause :=
        "PARTITION BY " ++ partitionCols ++
          (if agg.orderBy.length > 0 then
            " ORDER BY " ++ joinSep ", " (agg.orderBy.map orderTermSql)
          else "")
      func ++ "(" ++ expr ++ ") OVER (" ++ overClause ++ ")"
    else func ++ "(" ++ expr ++ ")"
  "  " ++ aggregateExpr ++ aliasSql col.aliasName

/-- The overClause accumulation of buildWindowColumn (the sequence of
let/if statements in the source, which reads only the window payload):
PARTITION BY, then ORDER BY, then the verbatim frame, space-separated. -/
def windowOverClause (w : Window) : String :=
  let over0 :=
    if w.partitionBy.length > 0 then "PARTITION BY " ++ joinSep ", " (w.partitionBy.map q)
    else ""
  let over1 :=
    if w.orderBy.length > 0 then
      over0 ++ (if over0 != "" then " " else "") ++ "ORDER BY " ++
        joinSep ", " (w.orderBy.map orderTermSql)
    else over0
  if strTruthy w.frame then over1 ++ (if over1 != "" then " " else "") ++ w.frame.getD ""
  else over1

/-- buildWindowColumn: FUNC(args) OVER (...), args decided by the function
family, the OVER body accumulated from partitionBy, orderBy and frame. -/
def buildWindowColumn (col : Column) (w : Window) : String :=
  let func := jsToUpper w.function
  let expr :=
    if col.sourceTable != "" then q col.sourceTable ++ "." ++ q col.sourceColumn
    else q col.sourceColumn
  let args :=
    if ["LAG", "LEAD", "NTH_VALUE", "FIRST_VALUE", "LAST_VALUE"].contains func then expr
    else if ["ROW_NUMBER", "RANK", "DENSE_RANK", "PERCENT_RANK", "CUME_DIST"].contains func then ""
    else expr
  let over2 := windowOverClause w
  let windowExpr := if args != "" then func ++ "(" ++ args ++ ")" else func ++ "()"
  let fullExpr :=
    if over2 != "" then windowExpr ++ " OVER (" ++ over2 ++ ")"
    else windowExpr ++ " OVER ()"
  "  " ++ fullExpr ++ aliasSql col.aliasName

/-- buildSelectClause: star when there are no columns, else one entry per
column probed aggregation first, then window, then explicit expression,
then plain column reference. -/
def buildSelectClause (t : Transform) : String :=
  if t.columns.isEmpty then "  *"
  else
    joinSep ",\n" (t.columns.map (fun col =>
      match col.aggregation with
      | some agg => buildAggregationColumn col agg
      | none =>
        match col.window with
        | some w => buildWindowColumn col w
        | none =>
          if strTruthy col.expression && col.sourceColumn == "" then
            "  " ++ col.expression.getD "" ++ aliasSql col.aliasName
          else
            let columnRef :=
              if col.sourceTable != "" then q col.sourceTable ++ "." ++ q col.sourceColumn
              else q col.sourceColumn
            "  " ++ columnRef ++ aliasSql col.aliasName))

/-- buildFromClause: the first source, schema-qualified and aliased when
present; throws when the source list is empty. -/
def buildFromClause (t : Transform) : Except String String :=
  match t.sources with
  | [] => .error ("Transform " ++ t.name ++ " has no sources")
  | firstSource :: _ =>
    let tableName :=
      if strTruthy firstSource.schemaName then
        q (firstSource.schemaName.getD "") ++ "." ++ q firstSource.name
      else q firstSource.name
    .ok (tableName ++ aliasSql firstSource.aliasName)

/-- The per-source body of buildJoinClauses (the arrow function passed to
forEach in the source): INNER JOIN with the AND-joined matching join
conditions when any join names the source on either side, CROSS JOIN
otherwise. -/
def joinClauseFor (t : Transform) (source : Source) : String :=
  let joinConditions :=
    t.joins.filter (fun j => j.rightTable == source.name || j.leftTable == source.name)
  let tableName :=
    if strTruthy source.schemaName then
      q (source.schemaName.getD "") ++ "." ++ q source.name
    else q source.name
  let aliasPart := aliasSql source.aliasName
  if joinConditions.length > 0 then
    "  INNER JOIN " ++ tableName ++ aliasPart ++ " ON " ++
      joinSep " AND " (joinConditions.map joinCondSql)
  else
    "  CROSS JOIN " ++ tableName ++ aliasPart

/-- buildJoinClauses: one clause per source after the first. -/
def buildJoinClauses (t : Transform) : List String :=
  if t.sources.length ≤ 1 then []
  else (t.sources.drop 1).map (joinClauseFor t)

/-- buildWhereClause: AND-joined raw filter expressions, or null. -/
def buildWhereClause (t : Transform) : Option String :=
  if t.filters.isEmpty then none
  else some ("WHERE " ++ joinSep " AND " (t.filters.map Filter.expression))

/-- buildGroupByClause: each stored token quoted, dotted tokens split into
a two-part qualified reference; null when the list is empty. -/
def buildGroupByClause (t : Transform) : Option String :=
  if t.groupBy.isEmpty then none
  else
    some ("GROUP BY " ++ joinSep ", " (t.groupBy.map (fun col =>
      if col.data.contains '.' then
        let parts := splitChar '.' col
        q (parts.getD 0 "") ++ "." ++ q (parts.getD 1 "")
      else q col)))

/-- buildOrderByClause: comma-joined order terms, or null. -/
def buildOrderByClause (t : Transform) : Option String :=
  if t.orderBy.isEmpty then none
  else some ("ORDER BY " ++ joinSep ", " (t.orderBy.map orderTermSql))

/-- buildLimitClause: LIMIT with the literal integer; null when the limit
is unset or 0 (JS number truthiness of transform.limit). -/
def buildLimitClause (t : Transform) : Option String :=
  match t.limit with
  | none => none
  | some v => if v == 0 then none else some ("LIMIT " ++ toString v)

/-- exportTransform: assemble the parts array and filter(Boolean) before
joining with newlines; the only throw site is buildFromClause. -/
def exportTransform (t : Transform) : Except String String :=
  match buildFromClause t with
  | .error e => .error e
  | .ok fromClause =>
    let parts : List (Option String) :=
      [some ("-- Transform: " ++ t.name),
       some ("CREATE OR REPLACE VIEW " ++ q t.name ++ " AS"),
       some "SELECT",
       some (buildSelectClause t),
       some ("FROM " ++ fromClause)]
      ++ (buildJoinClauses t).map some
      ++ [buildWhereClause t, buildGroupByClause t, buildOrderByClause t,
          buildLimitClause t]
    .ok (joinSep "\n" (partsFilter parts) ++ ";\n")

end TransformExporter

/-! ## dbt model emitter (DbtExporter.js, generateDbtModel path) -/

namespace DbtExporter

/-- The alias tail with dbt's unquoted identifiers. -/
def aliasDbt (a : Option String) : String :=
  if strTruthy a then " AS " ++ a.getD "" else ""

/-- One ORDER BY term with unquoted identifiers. -/
def orderTermDbt (o : OrderTerm) : String :=
  o.table ++ "." ++ o.column ++ " " ++ o.direction

/-- One join predicate with unquoted identifiers. -/
def joinCondDbt (j : Join) : String :=
  j.leftTable ++ "." ++ j.leftColumn ++ " " ++ j.operator ++ " " ++
    j.rightTable ++ "." ++ j.rightColumn

/-- The dbt source-reference template for a source name. -/
def refDbt (name : String) : String :=
  "\x7b\x7b ref(" ++ sQuote ++ snakeCase name ++ sQuote ++ ") \x7d\x7d"

/-- buildAggregationColumn with dbt conventions. -/
def buildAggregationColumn (col : Column) (agg : Aggregation) : String :=
  let func := jsToUpper agg.function
  let expr :=
    if col.sourceTable != "" then col.sourceTable ++ "." ++ col.sourceColumn
    else col.sourceColumn
  let aggregateExpr :=
    if agg.partitionBy.length > 0 then
      let partitionCols := joinSep ", " agg.partitionBy
      let overClause :=
        "PARTITION BY " ++ partitionCols ++
          (if agg.orderBy.length > 0 then
            " ORDER BY " ++ joinSep ", " (agg.orderBy.map orderTermDbt)
          else "")
      func ++ "(" ++ expr ++ ") OVER (" ++ overClause ++ ")"
    else func ++ "(" ++ expr ++ ")"
  "  " ++ aggregateExpr ++ aliasDbt col.aliasName

/-- The overClause accumulation of the dbt buildWindowColumn (unquoted
partition tokens, dbt order terms, verbatim frame). -/
def windowOverClause (w : Window) : String :=
  let over0 :=
    if w.partitionBy.length > 0 then "PARTITION BY " ++ joinSep ", " w.partitionBy
    else ""
  let over1 :=
    if w.orderBy.length > 0 then
      over0 ++ (if over0 != "" then " " else "") ++ "ORDER BY " ++
        joinSep ", " (w.orderBy.map orderTermDbt)
    else over0
  if strTruthy w.frame then over1 ++ (if over1 != "" then " " else "") ++ w.frame.getD ""
  else over1

/-- buildWindowColumn with dbt conventions; args stays empty only for the
rank family (the second branch is stated negatively in the source). -/
def buildWindowColumn (col : Column) (w : Window) : String :=
  let func := jsToUpper w.function
  let args :=
    if ["LAG", "LEAD", "NTH_VALUE", "FIRST_VALUE", "LAST_VALUE"].contains func then
      if col.sourceTable != "" then col.sourceTable ++ "." ++ col.sourceColumn
      else col.sourceColumn
    else if !(["ROW_NUMBER", "RANK", "DENSE_RANK", "PERCENT_RANK", "CUME_DIST"].contains func) then
      if col.sourceTable != "" then col.sourceTable ++ "." ++ col.sourceColumn
      else col.sourceColumn
    else ""
  let over2 := windowOverClause w
  let windowExpr := if args != "" then func ++ "(" ++ args ++ ")" else func ++ "()"
  let fullExpr :=
    if over2 != "" then windowExpr ++ " OVER (" ++ over2 ++ ")"
    else windowExpr ++ " OVER ()"
  "  " ++ fullExpr ++ aliasDbt col.aliasName

/-- buildSelectClause with dbt conventions (same probing order as the SQL
emitter, unquoted identifiers). -/
def buildSelectClause (t : Transform) : String :=
  if t.columns.isEmpty then "  *"
  else
    joinSep ",\n" (t.columns.map (fun col =>
      match col.aggregation with
      | some agg => buildAggregationColumn col agg
      | none =>
        match col.window with
        | some w => buildWindowColumn col w
        | none =>
          if strTruthy col.expression && col.sourceColumn == "" then
            "  " ++ col.expression.getD "" ++ aliasDbt col.aliasName
          else
            let columnRef :=
              if col.sourceTable != "" then col.sourceTable ++ "." ++ col.sourceColumn
              else col.sourceColumn
            "  " ++ columnRef ++ aliasDbt col.aliasName))

/-- buildFromClause: ref() template on the snake_cased first source name,
always aliased (source alias, else the source name); throws when the
source list is empty. -/
def buildFromClause (t : Transform) : Except String String :=
  match t.sources with
  | [] => .error ("Transform " ++ t.name ++ " has no sources")
  | firstSource :: _ =>
    let aliasPart := if strTruthy firstSource.aliasName then firstSource.aliasName.getD "" else firstSource.name
    .ok (refDbt firstSource.name ++ " AS " ++ aliasPart)

/-- The per-source body of buildJoinClauses with ref() templates: INNER
JOIN with AND-joined matching conditions, CROSS JOIN when no join names
the source. -/
def joinClauseFor (t : Transform) (source : Source) : String :=
  let joinConditions :=
    t.joins.filter (fun j => j.rightTable == source.name || j.leftTable == source.name)
  let aliasPart := if strTruthy source.aliasName then source.aliasName.getD "" else source.name
  if joinConditions.length > 0 then
    "  INNER JOIN " ++ refDbt source.name ++ " AS " ++ aliasPart ++ " ON " ++
      joinSep " AND " (joinConditions.map joinCondDbt)
  else
    "  CROSS JOIN " ++ refDbt source.name ++ " AS " ++ aliasPart

/-- buildJoinClauses: one clause per source after the first. -/
def buildJoinClauses (t : Transform) : List String :=
  if t.sources.length ≤ 1 then []
  else (t.sources.drop 1).map (joinClauseFor t)

/-- buildWhereClause, identical policy to the SQL emitter. -/
def buildWhereClause (t : Transform) : Option String :=
  if t.filters.isEmpty then none
  else some ("WHERE " ++ joinSep " AND " (t.filters.map Filter.expression))

/-- buildGroupByClause: tokens joined verbatim, or null. -/
def buildGroupByClause (t : Transform) : Option String :=
  if t.groupBy.isEmpty then none
  else some ("GROUP BY " ++ joinSep ", " t.groupBy)

/-- buildOrderByClause with unquoted identifiers, or null. -/
def buildOrderByClause (t : Transform) : Option String :=
  if t.orderBy.isEmpty then none
  else some ("ORDER BY " ++ joinSep ", " (t.orderBy.map orderTermDbt))

/-- buildLimitClause, identical policy to the SQL emitter. -/
def buildLimitClause (t : Transform) : Option String :=
  match t.limit with
  | none => none
  | some v => if v == 0 then none else some ("LIMIT " ++ toString v)

/-- generateDbtModel: config header plus the SELECT statement; the parts
array again goes through filter(Boolean), which also drops the two empty
spacer lines the source puts in the array. -/
def generateDbtModel (t : Transform) : Except String String :=
  match buildFromClause t with
  | .error e => .error e
  | .ok fromClause =>
    let parts : List (Option String) :=
      [some "\x7b\x7b",
       some "  config(",
       some ("    materialized=" ++ sQuote ++ "view" ++ sQuote),
       some "  )",
       some "\x7d\x7d",
       some "",
       some ("-- Transform: " ++ t.name),
       some "-- Generated from DBML",
       some "",
       some "SELECT",
       some (buildSelectClause t),
       some ("FROM " ++ fromClause)]
      ++ (buildJoinClauses t).map some
      ++ [buildWhereClause t, buildGroupByClause t, buildOrderByClause t,
          buildLimitClause t]
    .ok (joinSep "\n" (partsFilter parts) ++ "\n")

end DbtExporter

/-! ## Statement-level Transform interpreter (TransformInterpreter) -/

namespace TransformInterpreter

/-- expressionToString: fragment-join of whatever decomposes, empty string
on decomposition failure. -/
def expressionToString (expression : ExprNode) : String :=
  joinSep "." ((ExprNode.decomp expression).getD [])

/-- parseOrderBy: decompose into fragments, pop a trailing asc/desc token
(case-insensitively) as the direction, and produce one OrderTerm exactly
when two fragments remain. -/
def parseOrderBy (expression : ExprNode) : List OrderTerm :=
  let fragments := (ExprNode.decomp expression).getD []
  let popped : List String × String :=
    match fragments.getLast? with
    | some lastFragment =>
      if jsToLower lastFragment == "desc" then (fragments.dropLast, "DESC")
      else if jsToLower lastFragment == "asc" then (fragments.dropLast, "ASC")
      else (fragments, "ASC")
    | none => (fragments, "ASC")
  match popped.1, popped.2 with
  | [table, column], direction => [⟨table, column, direction⟩]
  | _, _ => []

/-- interpretJoin: the expression must be an infix comparison whose two
sides decompose to exactly two fragments each; otherwise INVALID_NAME. -/
def interpretJoin (t : Transform) (statement : Statement) :
    Transform × List CompileError :=
  match statement.expression with
  | none => (t, [⟨.INVALID_NAME, "Join expression is required"⟩])
  | some e =>
    match ExprNode.binOp e with
    | some (op, leftExpression, rightExpression) =>
      let operator := if strTruthy op then op.getD "" else "="
      let leftFragments := (ExprNode.decomp leftExpression).getD []
      let rightFragments := (ExprNode.decomp rightExpression).getD []
      match leftFragments, rightFragments with
      | [lt, lc], [rt, rc] =>
        ({ t with joins := t.joins ++ [⟨lt, lc, operator, rt, rc⟩] }, [])
      | _, _ =>
        (t, [⟨.INVALID_NAME, "Invalid join syntax. Expected: Table.column = Table.column"⟩])
    | none =>
      (t, [⟨.INVALID_NAME, "Invalid join syntax. Expected: Table.column = Table.column"⟩])

/-- interpretWhere: append one Filter holding the string serialization of
the whole expression. -/
def interpretWhere (t : Transform) (statement : Statement) :
    Transform × List CompileError :=
  match statement.expression with
  | none => (t, [⟨.INVALID_NAME, "Where expression is required"⟩])
  | some e => ({ t with filters := t.filters ++ [⟨expressionToString e⟩] }, [])

/-- interpretGroupBy: append the decomposed fragments onto groupBy. -/
def interpretGroupBy (t : Transform) (statement : Statement) :
    Transform × List CompileError :=
  match statement.expression with
  | none => (t, [⟨.INVALID_NAME, "Group by expression is required"⟩])
  | some e => ({ t with groupBy := t.groupBy ++ (ExprNode.decomp e).getD [] }, [])

/-- interpretOrderBy: append the parseOrderBy results onto orderBy. -/
def interpretOrderBy (t : Transform) (statement : Statement) :
    Transform × List CompileError :=
  match statement.expression with
  | none => (t, [⟨.INVALID_NAME, "Order by expression is required"⟩])
  | some e => ({ t with orderBy := t.orderBy ++ parseOrderBy e }, [])

/-- interpretLimit: extract a single token falling back to "0", parse it
as a base-10 integer; NaN gives INVALID_NAME with no limit recorded. -/
def interpretLimit (t : Transform) (statement : Statement) :
    Transform × List CompileError :=
  match statement.expression with
  | none => (t, [⟨.INVALID_NAME, "Limit expression is required"⟩])
  | some e =>
    let limitStr := (ExprNode.extractVar e).getD "0"
    match jsParseInt limitStr with
    | none => (t, [⟨.INVALID_NAME, "Limit must be a number"⟩])
    | some limit => ({ t with limit := some limit }, [])

/-- interpretUsing: record the nested transform name with empty sources. -/
def interpretUsing (t : Transform) (statement : Statement) :
    Transform × List CompileError :=
  match statement.expression with
  | none => (t, [⟨.INVALID_NAME, "Using expression is required"⟩])
  | some e =>
    ({ t with nestedTransform := some ⟨(ExprNode.extractVar e).getD "", []⟩ }, [])

/-- interpretAdd: the expression must be an infix with operator token
exactly "=", producing a DerivedColumn; otherwise INVALID_NAME. -/
def interpretAdd (t : Transform) (statement : Statement) :
    Transform × List CompileError :=
  match statement.expression with
  | none => (t, [⟨.INVALID_NAME, "Add expression is required"⟩])
  | some e =>
    match ExprNode.binOp e with
    | some (some "=", leftExpression, rightExpression) =>
      ({ t with derivedColumns := t.derivedColumns ++
          [⟨(ExprNode.extractVar leftExpression).getD "",
            expressionToString rightExpression⟩] }, [])
    | _ =>
      (t, [⟨.INVALID_NAME, "Add syntax must be: column_name = expression"⟩])

/-- interpretStatement: dispatch on the lowercased keyword token; any
keyword outside the fixed set yields one UNEXPECTED_TOKEN diagnostic and
leaves the Transform untouched (a missing keyword token renders as the
string "undefined" in the message, as in the JS template literal). -/
def interpretStatement (t : Transform) (statement : Statement) :
    Transform × List CompileError :=
  let keyword := statement.keyword.map jsToLower
  if keyword == some "join" then interpretJoin t statement
  else if keyword == some "where" then interpretWhere t statement
  else if keyword == some "group_by" then interpretGroupBy t statement
  else if keyword == some "order_by" then interpretOrderBy t statement
  else if keyword == some "limit" then interpretLimit t statement
  else if keyword == some "using" then interpretUsing t statement
  else if keyword == some "add" then interpretAdd t statement
  else (t, [⟨.UNEXPECTED_TOKEN, "Unknown transform keyword: " ++ optShow keyword⟩])

end TransformInterpreter

/-! ## Concrete inputs used by witnesses and counterexamples -/

/-- A Transform with every optional part absent; concrete inputs below are
built from it by record update. -/
def baseT : Transform :=
  { name := "V", schemaName := none, sources := [], columns := [], joins := [],
    filters := [], groupBy := [], orderBy := [], limit := none,
    derivedColumns := [], nestedTransform := none }

/-- A Transform with one source and nothing else. -/
def tOneSource : Transform := { baseT with sources := [⟨"T", none, none⟩] }

/-- A Transform whose limit is the integer 0 (reachable: the interpreter
stores parseInt("0", 10) = 0, e.g. via the fallback token). -/
def tLimitZero : Transform := { tOneSource with limit := some 0 }

/-- A Transform with a positive limit. -/
def tLimitTen : Transform := { tOneSource with limit := some 10 }

/-- A filterless Transform whose own name contains the substring WHERE. -/
def tNamedWhere : Transform := { baseT with name := "WHERE", sources := [⟨"T", none, none⟩] }

/-- Three sources with one join that names the second and third sources. -/
def tThreeSources : Transform :=
  { baseT with
    sources := [⟨"A", none, none⟩, ⟨"B", none, none⟩, ⟨"C", none, none⟩],
    joins := [⟨"B", "x", "=", "C", "y"⟩] }

/-- Two sources with a single matching join. -/
def tTwoSources : Transform :=
  { baseT with
    sources := [⟨"Users", none, none⟩, ⟨"Orders", none, none⟩],
    joins := [⟨"Users", "id", "=", "Orders", "user_id"⟩] }

/-- A window column with no partition, order or frame. -/
def colRowNumber : Column :=
  ⟨"Orders", "id", none, none, none, some ⟨"row_number", [], [], none⟩⟩

/-- An aggregation column whose orderBy is populated while partitionBy is
empty. -/
def colSumOrdered : Column :=
  ⟨"Orders", "total", some "s", none,
   some ⟨"sum", [], [⟨"Orders", "id", "ASC"⟩]⟩, none⟩

/-- An expression node with no decomposition, no extractable variable and
no infix shape. -/
def eOpaque : ExprNode := .node none none none

/-- An expression node that decomposes to Orders.total DESC. -/
def eOrderDesc : ExprNode := .node (some ["Orders", "total", "DESC"]) none none

/-- A statement with an unknown keyword. -/
def stFrobnicate : Statement := ⟨some "Frobnicate", some eOpaque⟩

/-- A limit statement whose expression has no extractable token. -/
def stLimitOpaque : Statement := ⟨some "limit", some eOpaque⟩

/-- An order_by statement carrying eOrderDesc. -/
def stOrderByDesc : Statement := ⟨some "order_by", some eOrderDesc⟩

/-! ## Substring lemmas -/

theorem leadsWith_self (n suf : List Char) : leadsWith n (n ++ suf) = true := by
  induction n with
  | nil => rfl
  | cons a as ih => simp [leadsWith, ih]

theorem leadsWith_nil (n : List Char) (h : leadsWith n [] = true) : n = [] := by
  cases n with
  | nil => rfl
  | cons a as => simp [leadsWith] at h

theorem leadsWith_ext (n : List Char) (suf : List Char) :
    ∀ l, leadsWith n l = true → leadsWith n (l ++ suf) = true := by
  induction n with
  | nil => intro l _; rfl
  | cons a as ih =>
    intro l h
    cases l with
    | nil => simp [leadsWith] at h
    | cons b bs =>
      simp only [leadsWith, Bool.and_eq_true] at h
      simp only [List.cons_append, leadsWith, Bool.and_eq_true]
      exact ⟨h.1, ih bs h.2⟩

theorem occursIn_nil (hay : List Char) : occursIn [] hay = true := by
  cases hay <;> simp [occursIn, leadsWith]

theorem occursIn_self_append (n suf : List Char) : occursIn n (n ++ suf) = true := by
  cases n with
  | nil => exact occursIn_nil _
  | cons a as =>
    have h := leadsWith_self (a :: as) suf
    simp only [List.cons_append] at h ⊢
    simp [occursIn, h]

theorem occursIn_pre (n l : List Char) (h : occursIn n l = true) :
    ∀ pre, occursIn n (pre ++ l) = true := by
  intro pre
  induction pre with
  | nil => simpa
  | cons p ps ih =>
    simp only [List.cons_append, occursIn, Bool.or_eq_true]
    exact Or.inr ih

theorem occursIn_suf (n suf : List Char) :
    ∀ l, occursIn n l = true → occursIn n (l ++ suf) = true := by
  intro l
  induction l with
  | nil =>
    intro h
    simp only [occursIn] at h
    rw [leadsWith_nil n h]
    simpa using occursIn_nil suf
  | cons b bs ih =>
    intro h
    simp only [occursIn, Bool.or_eq_true] at h
    simp only [List.cons_append, occursIn, Bool.or_eq_true]
    rcases h with h | h
    · left
      have := leadsWith_ext n suf (b :: bs) h
      simpa using this
    · exact Or.inr (ih h)

theorem strOccurs_right (x a b : String) (h : strOccurs x b = true) :
    strOccurs x (a ++ b) = true := by
  unfold strOccurs at h ⊢
  rw [String.data_append]
  exact occursIn_pre _ _ h _

theorem strOccurs_left (x a b : String) (h : strOccurs x a = true) :
    strOccurs x (a ++ b) = true := by
  unfold strOccurs at h ⊢
  rw [String.data_append]
  exact occursIn_suf _ _ _ h

theorem strOccurs_self_append (x suf : String) : strOccurs x (x ++ suf) = true := by
  unfold strOccurs
  rw [String.data_append]
  exact occursIn_self_append _ _

theorem strOccurs_refl (x : String) : strOccurs x x = true := by
  unfold strOccurs
  simpa using occursIn_self_append x.data []

theorem strOccurs_joinSep (x sep : String) :
    ∀ l : List String, x ∈ l → strOccurs x (joinSep sep l) = true := by
  intro l
  induction l with
  | nil => intro h; cases h
  | cons y ys ih =>
    intro h
    cases ys with
    | nil =>
      rcases List.mem_singleton.mp h with rfl
      exact strOccurs_refl x
    | cons z zs =>
      rcases List.mem_cons.mp h with rfl | h
      · exact strOccurs_left _ _ _ (strOccurs_self_append x sep)
      · exact strOccurs_right _ _ _ (ih h)

theorem mem_partsFilter (l : List (Option String)) (s : String)
    (hmem : some s ∈ l) (hne : (s != "") = true) : s ∈ partsFilter l := by
  unfold partsFilter
  exact List.mem_filter.mpr ⟨List.mem_filterMap.mpr ⟨some s, hmem, rfl⟩, hne⟩

/-! ## Claims -/

/-- C1: for every Transform, SQL emission (exportTransform) and dbt model
generation (generateDbtModel) throw exactly when the sources sequence is
empty; with at least one source both return a string; and each other empty
substructure merely omits the corresponding clause (null WHERE / GROUP BY
/ ORDER BY / LIMIT parts, star SELECT for no columns, CROSS JOIN bodies
with no ON when there are no joins). -/
theorem C1_codegen_error_iff_no_sources (t : Transform) :
    (t.sources = [] →
      TransformExporter.exportTransform t =
        .error ("Transform " ++ t.name ++ " has no sources") ∧
      DbtExporter.generateDbtModel t =
        .error ("Transform " ++ t.name ++ " has no sources")) ∧
    (t.sources ≠ [] →
      (∃ out, TransformExporter.exportTransform t = .ok out) ∧
      (∃ out, DbtExporter.generateDbtModel t = .ok out)) ∧
    (t.filters = [] →
      TransformExporter.buildWhereClause t = none ∧
      DbtExporter.buildWhereClause t = none) ∧
    (t.groupBy = [] →
      TransformExporter.buildGroupByClause t = none ∧
      DbtExporter.buildGroupByClause t = none) ∧
    (t.orderBy = [] →
      TransformExporter.buildOrderByClause t = none ∧
      DbtExporter.buildOrderByClause t = none) ∧
    (t.limit = none →
      TransformExporter.buildLimitClause t = none ∧
      DbtExporter.buildLimitClause t = none) ∧
    (t.columns = [] →
      TransformExporter.buildSelectClause t = "  *" ∧
      DbtExporter.buildSelectClause t = "  *") ∧
    (t.joins = [] →
      (∀ c ∈ TransformExporter.buildJoinClauses t, ∃ r, c = "  CROSS JOIN " ++ r) ∧
      (∀ c ∈ DbtExporter.buildJoinClauses t, ∃ r, c = "  CROSS JOIN " ++ r)) := by
  refine ⟨?_, ?_, ?_, ?_, ?_, ?_, ?_, ?_⟩
  · intro h
    constructor <;>
      simp [TransformExporter.exportTransform, TransformExporter.buildFromClause,
            DbtExporter.generateDbtModel, DbtExporter.buildFromClause, h]
  · intro h
    cases hs : t.sources with
    | nil => exact absurd hs h
    | cons s rest =>
      constructor
      · obtain ⟨f, hf⟩ : ∃ f, TransformExporter.buildFromClause t = .ok f := by
          simp [TransformExporter.buildFromClause, hs]
        cases hr : TransformExporter.exportTransform t with
        | ok o => exact ⟨o, rfl⟩
        | error e => simp [TransformExporter.exportTransform, hf] at hr
      · obtain ⟨f, hf⟩ : ∃ f, DbtExporter.buildFromClause t = .ok f := by
          simp [DbtExporter.buildFromClause, hs]
        cases hr : DbtExporter.generateDbtModel t with
        | ok o => exact ⟨o, rfl⟩
        | error e => simp [DbtExporter.generateDbtModel, hf] at hr
  · intro h
    constructor <;> simp [TransformExporter.buildWhereClause, DbtExporter.buildWhereClause, h]
  · intro h
    constructor <;> simp [TransformExporter.buildGroupByClause, DbtExporter.buildGroupByClause, h]
  · intro h
    constructor <;> simp [TransformExporter.buildOrderByClause, DbtExporter.buildOrderByClause, h]
  · intro h
    constructor <;> simp [TransformExporter.buildLimitClause, DbtExporter.buildLimitClause, h]
  · intro h
    constructor <;> simp [TransformExporter.buildSelectClause, DbtExporter.buildSelectClause, h]
  · intro h
    constructor
    · intro c hc
      simp only [TransformExporter.buildJoinClauses] at hc
      by_cases hl : t.sources.length ≤ 1
      · simp [hl] at hc
      · simp only [if_neg hl, List.mem_map] at hc
        obtain ⟨s, _, rfl⟩ := hc
        refine ⟨(if strTruthy s.schemaName then
            TransformExporter.q (s.schemaName.getD "") ++ "." ++ TransformExporter.q s.name
          else TransformExporter.q s.name) ++ TransformExporter.aliasSql s.aliasName, ?_⟩
        simp [TransformExporter.joinClauseFor, h, String.append_assoc]
    · intro c hc
      simp only [DbtExporter.buildJoinClauses] at hc
      by_cases hl : t.sources.length ≤ 1
      · simp [hl] at hc
      · simp only [if_neg hl, List.mem_map] at hc
        obtain ⟨s, _, rfl⟩ := hc
        refine ⟨DbtExporter.refDbt s.name ++ " AS " ++
          (if strTruthy s.aliasName then s.aliasName.getD "" else s.name), ?_⟩
        simp [DbtExporter.joinClauseFor, h, String.append_assoc]

/-- C1 witness: at a Transform with no sources both generators return the
structural error, and at one with a source both return a string. -/
theorem C1_witness :
    (TransformExporter.exportTransform baseT =
       .error ("Transform " ++ baseT.name ++ " has no sources")) ∧
    (∃ out, TransformExporter.exportTransform tOneSource = .ok out) := by
  refine ⟨((C1_codegen_error_iff_no_sources baseT).1 rfl).1, ?_⟩
  exact ((C1_codegen_error_iff_no_sources tOneSource).2.1 (by decide)).1

/-- C2: for a Transform with sources S1..Sn (n >= 2), emission produces for
each source Si (i >= 2), in source order, exactly one join clause: a
single INNER JOIN on Si whose ON body AND-joins every Join naming Si on
either side when at least one matches, and a CROSS JOIN on Si with no ON
clause when none matches. -/
theorem C2_join_clause_per_later_source (t : Transform) (i : Nat)
    (h1 : 1 ≤ i) (source : Source) (hsrc : t.sources[i]? = some source) :
    (TransformExporter.buildJoinClauses t).length = t.sources.length - 1 ∧
    (TransformExporter.buildJoinClauses t)[i - 1]? =
      some (
        let matching := t.joins.filter
          (fun j => j.rightTable == source.name || j.leftTable == source.name)
        let tableName :=
          if strTruthy source.schemaName then
            TransformExporter.q (source.schemaName.getD "") ++ "." ++
              TransformExporter.q source.name
          else TransformExporter.q source.name
        if matching.length > 0 then
          "  INNER JOIN " ++ tableName ++ TransformExporter.aliasSql source.aliasName ++
            " ON " ++ joinSep " AND " (matching.map TransformExporter.joinCondSql)
        else "  CROSS JOIN " ++ tableName ++ TransformExporter.aliasSql source.aliasName) := by
  have hi : i < t.sources.length := by
    by_contra hcon
    push_neg at hcon
    rw [List.getElem?_eq_none hcon] at hsrc
    cases hsrc
  have hnle : ¬ t.sources.length ≤ 1 := by omega
  refine ⟨?_, ?_⟩
  · simp [TransformExporter.buildJoinClauses, if_neg hnle]
  · simp only [TransformExporter.buildJoinClauses, if_neg hnle]
    rw [List.getElem?_map, List.getElem?_drop]
    have hidx : 1 + (i - 1) = i := by omega
    rw [hidx, hsrc]
    rfl

/-- C2 witness: in tThreeSources the clause for the second source is the
single INNER JOIN carrying the matching join condition. -/
theorem C2_witness :
    (TransformExporter.buildJoinClauses tThreeSources)[0]? =
      some "  INNER JOIN \"B\" ON \"B\".\"x\" = \"C\".\"y\"" := by
  have h := (C2_join_clause_per_later_source tThreeSources 1 (by decide)
    ⟨"B", none, none⟩ (by decide)).2
  exact h.trans (by decide)

/-- C3 counterexample: the claim fails at limit = 0. The Transform
tLimitZero has its limit field set to the non-negative integer 0, emission
succeeds, yet the statement contains no "LIMIT 0": JS number truthiness in
buildLimitClause (!transform.limit) drops the clause for 0. -/
theorem C3_counterexample :
    tLimitZero.limit = some 0 ∧ (0 : Int) ≥ 0 ∧
    TransformExporter.exportTransform tLimitZero =
      .ok "-- Transform: V\nCREATE OR REPLACE VIEW \"V\" AS\nSELECT\n  *\nFROM \"T\";\n" ∧
    strOccurs ("LIMIT " ++ toString (0 : Int))
      "-- Transform: V\nCREATE OR REPLACE VIEW \"V\" AS\nSELECT\n  *\nFROM \"T\";\n" = false :=
  ⟨rfl, by decide, rfl, by decide⟩

/-- C3 amended: for every Transform whose limit is a positive integer n,
the emitted statement contains "LIMIT n"; and interpreting a limit
statement whose single decomposed token does not parse as a base-10
integer yields the INVALID_NAME diagnostic and leaves the Transform (in
particular its limit) unchanged. -/
theorem C3_limit_amended :
    (∀ (t : Transform) (n : Int) (out : String), t.limit = some n → 0 < n →
       TransformExporter.exportTransform t = .ok out →
       strOccurs ("LIMIT " ++ toString n) out = true) ∧
    (∀ (t : Transform) (stmt : Statement) (e : ExprNode) (tok : String),
       stmt.expression = some e → ExprNode.extractVar e = some tok →
       jsParseInt tok = none →
       TransformInterpreter.interpretLimit t stmt =
         (t, [⟨CompileErrorCode.INVALID_NAME, "Limit must be a number"⟩])) := by
  constructor
  · intro t n out hlim hpos hok
    cases hs : t.sources with
    | nil =>
      simp [TransformExporter.exportTransform, TransformExporter.buildFromClause, hs] at hok
    | cons s rest =>
      obtain ⟨f, hf⟩ : ∃ f, TransformExporter.buildFromClause t = .ok f := by
        simp [TransformExporter.buildFromClause, hs]
      have hlimC : TransformExporter.buildLimitClause t = some ("LIMIT " ++ toString n) := by
        have : (n == 0) = false := by
          simp only [beq_eq_false_iff_ne, ne_eq]
          omega
        simp [TransformExporter.buildLimitClause, hlim, this]
      have hout : TransformExporter.exportTransform t = .ok
          (joinSep "\n" (partsFilter
            ([some ("-- Transform: " ++ t.name),
              some ("CREATE OR REPLACE VIEW " ++ TransformExporter.q t.name ++ " AS"),
              some "SELECT",
              some (TransformExporter.buildSelectClause t),
              some ("FROM " ++ f)]
             ++ (TransformExporter.buildJoinClauses t).map some
             ++ [TransformExporter.buildWhereClause t, TransformExporter.buildGroupByClause t,
                 TransformExporter.buildOrderByClause t, TransformExporter.buildLimitClause t])) ++ ";\n") := by
        simp [TransformExporter.exportTransform, hf]
      rw [hout] at hok
      have hout2 := hok
      simp only [Except.ok.injEq] at hout2
      subst hout2
      have hne : ("LIMIT " ++ toString n) ≠ "" := by
        intro h
        have hdata := congrArg String.data h
        rw [String.data_append] at hdata
        rw [show "LIMIT ".data = ['L', 'I', 'M', 'I', 'T', ' '] from rfl] at hdata
        simp at hdata
      apply strOccurs_left
      apply strOccurs_joinSep
      apply mem_partsFilter
      · simp [hlimC]
      · simpa using hne
  · intro t stmt e tok he hv hparse
    simp [TransformInterpreter.interpretLimit, he, hv, hparse]

/-- C3 witness: a limit of 10 renders "LIMIT 10" in the emitted statement,
and the non-numeric token abc yields the INVALID_NAME diagnostic with the
Transform unchanged. -/
theorem C3_witness :
    strOccurs ("LIMIT " ++ toString (10 : Int))
      "-- Transform: V\nCREATE OR REPLACE VIEW \"V\" AS\nSELECT\n  *\nFROM \"T\"\nLIMIT 10;\n" = true ∧
    TransformInterpreter.interpretLimit baseT
        ⟨some "limit", some (ExprNode.node none (some "abc") none)⟩ =
      (baseT, [⟨CompileErrorCode.INVALID_NAME, "Limit must be a number"⟩]) :=
  ⟨C3_limit_amended.1 tLimitTen 10 _ rfl (by decide) rfl,
   C3_limit_amended.2 baseT _ (ExprNode.node none (some "abc") none) "abc" rfl rfl (by decide)⟩

/-- A string whose character list is nonempty is not the empty string. -/
theorem str_ne_empty_of_data_ne_nil (x : String) (h : x.data ≠ []) : x ≠ "" := by
  intro he
  rw [he] at h
  exact h rfl

/-- The character list of an append is nonempty when the left part's is. -/
theorem append_data_ne_nil_left (a b : String) (h : a.data ≠ []) : (a ++ b).data ≠ [] := by
  rw [String.data_append]
  intro hc
  exact h (List.append_eq_nil.mp hc).1

/-- Quoted identifiers are never the empty string. -/
theorem q_ne_empty (s : String) : TransformExporter.q s ≠ "" := by
  apply str_ne_empty_of_data_ne_nil
  unfold TransformExporter.q
  apply append_data_ne_nil_left
  apply append_data_ne_nil_left
  simp

/-- The column reference used by the SQL emitter is never empty. -/
theorem columnRef_ne_empty (col : Column) :
    (if col.sourceTable != "" then
      TransformExporter.q col.sourceTable ++ "." ++ TransformExporter.q col.sourceColumn
    else TransformExporter.q col.sourceColumn) ≠ "" := by
  split
  · apply str_ne_empty_of_data_ne_nil
    apply append_data_ne_nil_left
    apply append_data_ne_nil_left
    exact fun hc => q_ne_empty _ (by
      apply String.ext
      simpa using hc)
  · exact q_ne_empty _

/-- C4: a window column renders as FUNC(args) OVER (...), with FUNC the
stored function name uppercased; the argument list is empty exactly for
the rank family (ROW_NUMBER, RANK, DENSE_RANK, PERCENT_RANK, CUME_DIST)
and is the qualified column reference for every other name, unknown ones
included; the OVER clause is always present, with empty parentheses when
no partitionBy, orderBy or frame is present. -/
theorem C4_window_rendering (col : Column) (w : Window) (hw : col.window = some w) :
    TransformExporter.buildWindowColumn col w =
      "  " ++
        ((if (["ROW_NUMBER", "RANK", "DENSE_RANK", "PERCENT_RANK", "CUME_DIST"].contains
               (jsToUpper w.function)) then
            jsToUpper w.function ++ "()"
          else
            jsToUpper w.function ++ "(" ++
              (if col.sourceTable != "" then
                TransformExporter.q col.sourceTable ++ "." ++ TransformExporter.q col.sourceColumn
              else TransformExporter.q col.sourceColumn) ++ ")") ++
         " OVER (" ++ TransformExporter.windowOverClause w ++ ")") ++
        TransformExporter.aliasSql col.aliasName ∧
    (w.partitionBy = [] → w.orderBy = [] → w.frame.getD "" = "" →
      TransformExporter.windowOverClause w = "") := by
  constructor
  · have hrefb : ((if col.sourceTable != "" then
        TransformExporter.q col.sourceTable ++ "." ++ TransformExporter.q col.sourceColumn
      else TransformExporter.q col.sourceColumn) != "") = true := by
      simpa using columnRef_ne_empty col
    have hfull : ∀ we : String,
        (if (TransformExporter.windowOverClause w != "") = true then
           we ++ " OVER (" ++ TransformExporter.windowOverClause w ++ ")"
         else we ++ " OVER ()") =
        we ++ " OVER (" ++ TransformExporter.windowOverClause w ++ ")" := by
      intro we
      by_cases hov : (TransformExporter.windowOverClause w != "") = true
      · rw [if_pos hov]
      · rw [if_neg hov]
        have hov2 : TransformExporter.windowOverClause w = "" := by simpa using hov
        rw [hov2, String.append_empty, String.append_assoc]
        congr 1
    simp only [TransformExporter.buildWindowColumn]
    by_cases hLag :
        (["LAG", "LEAD", "NTH_VALUE", "FIRST_VALUE", "LAST_VALUE"].contains (jsToUpper w.function)) = true
    · have hRank :
          (["ROW_NUMBER", "RANK", "DENSE_RANK", "PERCENT_RANK", "CUME_DIST"].contains
            (jsToUpper w.function)) = false := by
        have h1 := List.mem_of_elem_eq_true hLag
        simp only [List.mem_cons, List.not_mem_nil, or_false] at h1
        rcases h1 with h | h | h | h | h <;> rw [h] <;> rfl
      simp only [hLag, hRank, Bool.false_eq_true, if_false, if_true, hrefb]
      rw [hfull]
    · have hLagF :
          (["LAG", "LEAD", "NTH_VALUE", "FIRST_VALUE", "LAST_VALUE"].contains (jsToUpper w.function)) = false :=
        Bool.not_eq_true _ |>.mp hLag
      by_cases hRank :
          (["ROW_NUMBER", "RANK", "DENSE_RANK", "PERCENT_RANK", "CUME_DIST"].contains
            (jsToUpper w.function)) = true
      · simp only [hLagF, hRank, Bool.false_eq_true, if_false, if_true, bne_self_eq_false]
        rw [hfull]
      · have hRankF :
            (["ROW_NUMBER", "RANK", "DENSE_RANK", "PERCENT_RANK", "CUME_DIST"].contains
              (jsToUpper w.function)) = false :=
          Bool.not_eq_true _ |>.mp hRank
        simp only [hLagF, hRankF, Bool.false_eq_true, if_false, hrefb, if_true]
        rw [hfull]
  · intro h1 h2 h3
    simp [TransformExporter.windowOverClause, h1, h2, strTruthy, h3]

/-- C4 witness: a row_number window column with no partition, order or
frame renders with an empty argument list and OVER (). -/
theorem C4_witness :
    TransformExporter.buildWindowColumn colRowNumber ⟨"row_number", [], [], none⟩ =
      "  ROW_NUMBER() OVER ()" := by
  have h := C4_window_rendering colRowNumber ⟨"row_number", [], [], none⟩ rfl
  rw [h.1]
  decide

/-- C5: the order-by parser pops a trailing case-insensitive asc/desc
fragment as the direction (default ASC), produces exactly one OrderTerm
{table, column, direction} when exactly two fragments remain after the
pop, and produces zero terms for any other remaining count; the enclosing
order_by statement interpreter emits no diagnostic either way. -/
theorem C5_parseOrderBy_shape (e : ExprNode) (fs : List String)
    (hfs : (ExprNode.decomp e).getD [] = fs) :
    (∀ tb c, fs = [tb, c] → jsToLower c ≠ "desc" → jsToLower c ≠ "asc" →
       TransformInterpreter.parseOrderBy e = [⟨tb, c, "ASC"⟩]) ∧
    (∀ tb c d, fs = [tb, c, d] → jsToLower d = "desc" →
       TransformInterpreter.parseOrderBy e = [⟨tb, c, "DESC"⟩]) ∧
    (∀ tb c d, fs = [tb, c, d] → jsToLower d = "asc" →
       TransformInterpreter.parseOrderBy e = [⟨tb, c, "ASC"⟩]) ∧
    ((if (match fs.getLast? with
          | some lf => jsToLower lf == "desc" || jsToLower lf == "asc"
          | none => false) then fs.dropLast.length else fs.length) ≠ 2 →
       TransformInterpreter.parseOrderBy e = []) ∧
    (∀ (t : Transform) (stmt : Statement), stmt.expression = some e →
       TransformInterpreter.interpretOrderBy t stmt =
         ({ t with orderBy := t.orderBy ++ TransformInterpreter.parseOrderBy e }, [])) := by
  refine ⟨?_, ?_, ?_, ?_, ?_⟩
  · intro tb c h hd ha
    have hd' : (jsToLower c == "desc") = false := beq_eq_false_iff_ne.mpr hd
    have ha' : (jsToLower c == "asc") = false := beq_eq_false_iff_ne.mpr ha
    simp only [TransformInterpreter.parseOrderBy, hfs, h,
      show ([tb, c] : List String).getLast? = some c from rfl,
      hd', ha', Bool.false_eq_true, if_false]
  · intro tb c d h hd
    simp only [TransformInterpreter.parseOrderBy, hfs, h,
      show ([tb, c, d] : List String).getLast? = some d from rfl, hd,
      show (("desc" : String) == "desc") = true from rfl, if_true,
      show ([tb, c, d] : List String).dropLast = [tb, c] from rfl]
  · intro tb c d h ha
    simp only [TransformInterpreter.parseOrderBy, hfs, h,
      show ([tb, c, d] : List String).getLast? = some d from rfl, ha,
      show (("asc" : String) == "desc") = false from rfl,
      show (("asc" : String) == "asc") = true from rfl,
      Bool.false_eq_true, if_false, if_true,
      show ([tb, c, d] : List String).dropLast = [tb, c] from rfl]
  · intro hlen
    simp only [TransformInterpreter.parseOrderBy, hfs]
    cases hlast : fs.getLast? with
    | none =>
      have hnil : fs = [] := by
        cases fs with
        | nil => rfl
        | cons a as => simp at hlast
      subst hnil
      rfl
    | some lf =>
      rw [hlast] at hlen
      by_cases hd : (jsToLower lf == "desc") = true
      · simp only [hd, Bool.true_or, if_true] at hlen ⊢
        rcases hdl : fs.dropLast with _ | ⟨a, _ | ⟨b, _ | ⟨c2, tl⟩⟩⟩
        · rfl
        · rfl
        · rw [hdl] at hlen
          exact (hlen rfl).elim
        · rfl
      · have hd' : (jsToLower lf == "desc") = false := Bool.not_eq_true _ |>.mp hd
        by_cases ha : (jsToLower lf == "asc") = true
        · simp only [hd', ha, Bool.false_or, if_true, Bool.false_eq_true, if_false] at hlen ⊢
          rcases hdl : fs.dropLast with _ | ⟨a, _ | ⟨b, _ | ⟨c2, tl⟩⟩⟩
          · rfl
          · rfl
          · rw [hdl] at hlen
            exact (hlen rfl).elim
          · rfl
        · have ha' : (jsToLower lf == "asc") = false := Bool.not_eq_true _ |>.mp ha
          simp only [hd', ha', Bool.or_self, Bool.false_eq_true, if_false] at hlen ⊢
          rcases hfs2 : fs with _ | ⟨a, _ | ⟨b, _ | ⟨c2, tl⟩⟩⟩
          · rfl
          · rfl
          · rw [hfs2] at hlen
            exact (hlen rfl).elim
          · rfl
  · intro t stmt hstmt
    simp [TransformInterpreter.interpretOrderBy, hstmt]

/-- C5 witness: Orders.total DESC parses to the single descending term,
and the order_by statement records it with no diagnostic. -/
theorem C5_witness :
    TransformInterpreter.parseOrderBy eOrderDesc = [⟨"Orders", "total", "DESC"⟩] ∧
    TransformInterpreter.interpretOrderBy baseT stOrderByDesc =
      ({ baseT with orderBy := baseT.orderBy ++ TransformInterpreter.parseOrderBy eOrderDesc }, []) := by
  have h := C5_parseOrderBy_shape eOrderDesc ["Orders", "total", "DESC"] rfl
  exact ⟨h.2.1 "Orders" "total" "DESC" rfl (by decide), h.2.2.2.2 baseT stOrderByDesc rfl⟩

/-- C6: a statement whose keyword is not case-insensitively one of join,
where, group_by, order_by, limit, using, add yields exactly one
UNEXPECTED_TOKEN diagnostic naming that keyword, and leaves the Transform
record (all of its fields) unchanged. -/
theorem C6_unknown_keyword_dropped (t : Transform) (stmt : Statement) (k : String)
    (hk : stmt.keyword = some k)
    (hnot : jsToLower k ∉
      (["join", "where", "group_by", "order_by", "limit", "using", "add"] : List String)) :
    TransformInterpreter.interpretStatement t stmt =
      (t, [⟨CompileErrorCode.UNEXPECTED_TOKEN,
            "Unknown transform keyword: " ++ jsToLower k⟩]) := by
  simp only [List.mem_cons, List.not_mem_nil, or_false, not_or] at hnot
  obtain ⟨n1, n2, n3, n4, n5, n6, n7⟩ := hnot
  simp [TransformInterpreter.interpretStatement, hk, optShow, n1, n2, n3, n4, n5, n6, n7]

/-- C6 witness: the unknown keyword Frobnicate produces one
UNEXPECTED_TOKEN diagnostic naming frobnicate and no field changes. -/
theorem C6_witness :
    TransformInterpreter.interpretStatement baseT stFrobnicate =
      (baseT, [⟨CompileErrorCode.UNEXPECTED_TOKEN,
                "Unknown transform keyword: " ++ jsToLower "Frobnicate"⟩]) :=
  C6_unknown_keyword_dropped baseT stFrobnicate "Frobnicate" rfl (by decide)

/-- C7 counterexample: the universally quantified omission claim fails for
a Transform whose own name contains WHERE: tNamedWhere has no filters,
groupBy, orderBy or limit, yet the emitted statement contains the
substring WHERE (from the comment and the view name). -/
theorem C7_counterexample :
    tNamedWhere.filters = [] ∧ tNamedWhere.groupBy = [] ∧
    tNamedWhere.orderBy = [] ∧ tNamedWhere.limit = none ∧
    TransformExporter.exportTransform tNamedWhere =
      .ok "-- Transform: WHERE\nCREATE OR REPLACE VIEW \"WHERE\" AS\nSELECT\n  *\nFROM \"T\";\n" ∧
    strOccurs "WHERE"
      "-- Transform: WHERE\nCREATE OR REPLACE VIEW \"WHERE\" AS\nSELECT\n  *\nFROM \"T\";\n" = true :=
  ⟨rfl, rfl, rfl, rfl, rfl, by decide⟩

/-- C7 amended: a Transform with no filters, groupBy, orderBy and limit
emits no WHERE, GROUP BY, ORDER BY or LIMIT clause part: the statement
consists of exactly the comment, CREATE, SELECT, column list, FROM and
join lines (the four substrings may still occur inside the transform's
own name, aliases or expressions). -/
theorem C7_empty_clause_omission (t : Transform)
    (hf : t.filters = []) (hg : t.groupBy = []) (ho : t.orderBy = [])
    (hl : t.limit = none) (f : String)
    (hfrom : TransformExporter.buildFromClause t = .ok f) :
    TransformExporter.exportTransform t =
      .ok (joinSep "\n" (partsFilter
        ([some ("-- Transform: " ++ t.name),
          some ("CREATE OR REPLACE VIEW " ++ TransformExporter.q t.name ++ " AS"),
          some "SELECT",
          some (TransformExporter.buildSelectClause t),
          some ("FROM " ++ f)]
         ++ (TransformExporter.buildJoinClauses t).map some)) ++ ";\n") := by
  have hwc : TransformExporter.buildWhereClause t = none := by
    simp [TransformExporter.buildWhereClause, hf]
  have hgc : TransformExporter.buildGroupByClause t = none := by
    simp [TransformExporter.buildGroupByClause, hg]
  have hoc : TransformExporter.buildOrderByClause t = none := by
    simp [TransformExporter.buildOrderByClause, ho]
  have hlc : TransformExporter.buildLimitClause t = none := by
    simp [TransformExporter.buildLimitClause, hl]
  simp [TransformExporter.exportTransform, hfrom, hwc, hgc, hoc, hlc,
    partsFilter, List.filterMap_append]

/-- C7 witness: the one-source empty Transform emits exactly the
comment, CREATE, SELECT, star and FROM lines. -/
theorem C7_witness :
    TransformExporter.exportTransform tOneSource =
      .ok (joinSep "\n" (partsFilter
        ([some ("-- Transform: " ++ tOneSource.name),
          some ("CREATE OR REPLACE VIEW " ++ TransformExporter.q tOneSource.name ++ " AS"),
          some "SELECT",
          some (TransformExporter.buildSelectClause tOneSource),
          some ("FROM " ++ "\"T\"")]
         ++ (TransformExporter.buildJoinClauses tOneSource).map some)) ++ ";\n") :=
  C7_empty_clause_omission tOneSource rfl rfl rfl rfl "\"T\"" rfl

/-- Helper: when a join matches a non-first source, the SQL emitter's
clause for that source is an INNER JOIN whose ON body contains that
join's rendered condition. -/
theorem TE_joinClause_inner (t : Transform) (j : Join) (i : Nat) (h1 : 1 ≤ i)
    (source : Source) (hsrc : t.sources[i]? = some source)
    (hj : j ∈ t.joins)
    (hmatch : (j.rightTable == source.name || j.leftTable == source.name) = true) :
    ∃ c, (TransformExporter.buildJoinClauses t)[i - 1]? = some c ∧
      (∃ r, c = "  INNER JOIN " ++ r) ∧
      strOccurs (TransformExporter.joinCondSql j) c = true := by
  have hi : i < t.sources.length := by
    by_contra hcon
    push_neg at hcon
    rw [List.getElem?_eq_none hcon] at hsrc
    cases hsrc
  have hnle : ¬ t.sources.length ≤ 1 := by omega
  have hget : (TransformExporter.buildJoinClauses t)[i - 1]? =
      some (TransformExporter.joinClauseFor t source) := by
    simp only [TransformExporter.buildJoinClauses, if_neg hnle]
    rw [List.getElem?_map, List.getElem?_drop]
    have hidx : 1 + (i - 1) = i := by omega
    rw [hidx, hsrc]
    rfl
  have hjf : j ∈ t.joins.filter
      (fun j => j.rightTable == source.name || j.leftTable == source.name) :=
    List.mem_filter.mpr ⟨hj, hmatch⟩
  have hpos : 0 < (t.joins.filter
      (fun j => j.rightTable == source.name || j.leftTable == source.name)).length :=
    List.length_pos.mpr (List.ne_nil_of_mem hjf)
  refine ⟨_, hget, ?_, ?_⟩
  · simp only [TransformExporter.joinClauseFor, if_pos hpos]
    refine ⟨(if strTruthy source.schemaName = true then
        TransformExporter.q (source.schemaName.getD "") ++ ("." ++ TransformExporter.q source.name)
      else TransformExporter.q source.name) ++
        (TransformExporter.aliasSql source.aliasName ++
          (" ON " ++ joinSep " AND " (List.map TransformExporter.joinCondSql
            (List.filter (fun j => j.rightTable == source.name || j.leftTable == source.name)
              t.joins)))), ?_⟩
    simp [String.append_assoc]
  · simp only [TransformExporter.joinClauseFor, if_pos hpos]
    apply strOccurs_right
    apply strOccurs_joinSep
    exact List.mem_map.mpr ⟨j, hjf, rfl⟩

/-- Helper: dbt counterpart of TE_joinClause_inner. -/
theorem Dbt_joinClause_inner (t : Transform) (j : Join) (i : Nat) (h1 : 1 ≤ i)
    (source : Source) (hsrc : t.sources[i]? = some source)
    (hj : j ∈ t.joins)
    (hmatch : (j.rightTable == source.name || j.leftTable == source.name) = true) :
    ∃ c, (DbtExporter.buildJoinClauses t)[i - 1]? = some c ∧
      (∃ r, c = "  INNER JOIN " ++ r) ∧
      strOccurs (DbtExporter.joinCondDbt j) c = true := by
  have hi : i < t.sources.length := by
    by_contra hcon
    push_neg at hcon
    rw [List.getElem?_eq_none hcon] at hsrc
    cases hsrc
  have hnle : ¬ t.sources.length ≤ 1 := by omega
  have hget : (DbtExporter.buildJoinClauses t)[i - 1]? =
      some (DbtExporter.joinClauseFor t source) := by
    simp only [DbtExporter.buildJoinClauses, if_neg hnle]
    rw [List.getElem?_map, List.getElem?_drop]
    have hidx : 1 + (i - 1) = i := by omega
    rw [hidx, hsrc]
    rfl
  have hjf : j ∈ t.joins.filter
      (fun j => j.rightTable == source.name || j.leftTable == source.name) :=
    List.mem_filter.mpr ⟨hj, hmatch⟩
  have hpos : 0 < (t.joins.filter
      (fun j => j.rightTable == source.name || j.leftTable == source.name)).length :=
    List.length_pos.mpr (List.ne_nil_of_mem hjf)
  refine ⟨_, hget, ?_, ?_⟩
  · simp only [DbtExporter.joinClauseFor, if_pos hpos]
    refine ⟨DbtExporter.refDbt source.name ++
      (" AS " ++
        ((if strTruthy source.aliasName = true then source.aliasName.getD "" else source.name) ++
          (" ON " ++ joinSep " AND " (List.map DbtExporter.joinCondDbt
            (List.filter (fun j => j.rightTable == source.name || j.leftTable == source.name)
              t.joins))))), ?_⟩
    simp [String.append_assoc]
  · simp only [DbtExporter.joinClauseFor, if_pos hpos]
    apply strOccurs_right
    apply strOccurs_joinSep
    exact List.mem_map.mpr ⟨j, hjf, rfl⟩

/-- C8: a Join whose leftTable names one non-first source and whose
rightTable names a different non-first source is rendered twice by both
emitters: its condition appears in the INNER JOIN ON body of each of the
two sources' clauses. -/
theorem C8_cross_source_join_rendered_twice (t : Transform) (j : Join) (i k : Nat)
    (h1i : 1 ≤ i) (h1k : 1 ≤ k) (hik : i ≠ k)
    (si sk : Source) (hsi : t.sources[i]? = some si) (hsk : t.sources[k]? = some sk)
    (hj : j ∈ t.joins) (hL : j.leftTable = si.name) (hR : j.rightTable = sk.name) :
    (∃ c, (TransformExporter.buildJoinClauses t)[i - 1]? = some c ∧
       (∃ r, c = "  INNER JOIN " ++ r) ∧
       strOccurs (TransformExporter.joinCondSql j) c = true) ∧
    (∃ c, (TransformExporter.buildJoinClauses t)[k - 1]? = some c ∧
       (∃ r, c = "  INNER JOIN " ++ r) ∧
       strOccurs (TransformExporter.joinCondSql j) c = true) ∧
    (∃ c, (DbtExporter.buildJoinClauses t)[i - 1]? = some c ∧
       (∃ r, c = "  INNER JOIN " ++ r) ∧
       strOccurs (DbtExporter.joinCondDbt j) c = true) ∧
    (∃ c, (DbtExporter.buildJoinClauses t)[k - 1]? = some c ∧
       (∃ r, c = "  INNER JOIN " ++ r) ∧
       strOccurs (DbtExporter.joinCondDbt j) c = true) := by
  have hmi : (j.rightTable == si.name || j.leftTable == si.name) = true := by
    rw [hL]
    simp
  have hmk : (j.rightTable == sk.name || j.leftTable == sk.name) = true := by
    rw [hR]
    simp
  exact ⟨TE_joinClause_inner t j i h1i si hsi hj hmi,
         TE_joinClause_inner t j k h1k sk hsk hj hmk,
         Dbt_joinClause_inner t j i h1i si hsi hj hmi,
         Dbt_joinClause_inner t j k h1k sk hsk hj hmk⟩

/-- C8 witness: in tThreeSources the join between the second and third
sources appears in both INNER JOIN clauses, in both emitters. -/
theorem C8_witness :
    (∃ c, (TransformExporter.buildJoinClauses tThreeSources)[0]? = some c ∧
       (∃ r, c = "  INNER JOIN " ++ r) ∧
       strOccurs (TransformExporter.joinCondSql ⟨"B", "x", "=", "C", "y"⟩) c = true) ∧
    (∃ c, (TransformExporter.buildJoinClauses tThreeSources)[1]? = some c ∧
       (∃ r, c = "  INNER JOIN " ++ r) ∧
       strOccurs (TransformExporter.joinCondSql ⟨"B", "x", "=", "C", "y"⟩) c = true) ∧
    (∃ c, (DbtExporter.buildJoinClauses tThreeSources)[0]? = some c ∧
       (∃ r, c = "  INNER JOIN " ++ r) ∧
       strOccurs (DbtExporter.joinCondDbt ⟨"B", "x", "=", "C", "y"⟩) c = true) ∧
    (∃ c, (DbtExporter.buildJoinClauses tThreeSources)[1]? = some c ∧
       (∃ r, c = "  INNER JOIN " ++ r) ∧
       strOccurs (DbtExporter.joinCondDbt ⟨"B", "x", "=", "C", "y"⟩) c = true) :=
  C8_cross_source_join_rendered_twice tThreeSources ⟨"B", "x", "=", "C", "y"⟩ 1 2
    (by decide) (by decide) (by decide) ⟨"B", none, none⟩ ⟨"C", none, none⟩
    (by decide) (by decide) (by decide) rfl rfl

/-- C9: an aggregation column whose orderBy is non-empty but whose
partitionBy is empty renders as plain FUNC(arg) in both emitters, with no
OVER clause and no ORDER BY — the orderBy data does not appear in the
output at all (the right-hand sides below never mention agg.orderBy). -/
theorem C9_aggregation_orderBy_discarded (col : Column) (agg : Aggregation)
    (ha : col.aggregation = some agg) (hp : agg.partitionBy = [])
    (ho : agg.orderBy ≠ []) :
    TransformExporter.buildAggregationColumn col agg =
      "  " ++ (jsToUpper agg.function ++ "(" ++
        (if col.sourceTable != "" then
          TransformExporter.q col.sourceTable ++ "." ++ TransformExporter.q col.sourceColumn
        else TransformExporter.q col.sourceColumn) ++ ")") ++
      TransformExporter.aliasSql col.aliasName ∧
    DbtExporter.buildAggregationColumn col agg =
      "  " ++ (jsToUpper agg.function ++ "(" ++
        (if col.sourceTable != "" then col.sourceTable ++ "." ++ col.sourceColumn
        else col.sourceColumn) ++ ")") ++
      DbtExporter.aliasDbt col.aliasName := by
  constructor <;>
    simp [TransformExporter.buildAggregationColumn, DbtExporter.buildAggregationColumn, hp]

/-- C9 witness: sum over Orders.total with an order_by but no
partition_by renders with no OVER in both emitters. -/
theorem C9_witness :
    TransformExporter.buildAggregationColumn colSumOrdered
        ⟨"sum", [], [⟨"Orders", "id", "ASC"⟩]⟩ =
      "  SUM(\"Orders\".\"total\") AS \"s\"" ∧
    DbtExporter.buildAggregationColumn colSumOrdered
        ⟨"sum", [], [⟨"Orders", "id", "ASC"⟩]⟩ =
      "  SUM(Orders.total) AS s" := by
  have h := C9_aggregation_orderBy_discarded colSumOrdered
    ⟨"sum", [], [⟨"Orders", "id", "ASC"⟩]⟩ rfl rfl (by decide)
  exact ⟨h.1.trans (by decide), h.2.trans (by decide)⟩

/-- C10: when single-token extraction from a limit statement's expression
fails, the interpreter falls back to the token "0", records limit = 0 and
returns zero diagnostics. -/
theorem C10_limit_fallback_zero (t : Transform) (stmt : Statement) (e : ExprNode)
    (he : stmt.expression = some e) (hv : ExprNode.extractVar e = none) :
    TransformInterpreter.interpretLimit t stmt = ({ t with limit := some 0 }, []) := by
  have h0 : jsParseInt "0" = some 0 := by decide
  simp [TransformInterpreter.interpretLimit, he, hv, h0]

/-- C10 witness: a limit statement with an opaque expression silently
records limit = 0. -/
theorem C10_witness :
    TransformInterpreter.interpretLimit baseT stLimitOpaque =
      ({ baseT with limit := some 0 }, []) :=
  C10_limit_fallback_zero baseT stLimitOpaque eOpaque rfl rfl

end Dbml
